import Mathlib

/-!
Shallow embedding of the Harvard-Westlake/vyper-server repository
(src/server.py and src/https_server.py) together with proofs about the
claims of its natural-language specification.

Both Python files expose the same three routes over a shared in-process
dictionary `compilation_results`:
  POST /compile        -> compile_it      (src/server.py:123-135, src/https_server.py:120-132)
  GET  /status/{id}    -> check_status    (src/server.py:137-143, src/https_server.py:134-140)
  GET  /artifacts/{id} -> get_artifacts   (src/server.py:145-151, src/https_server.py:142-148)
and a synchronous helper `_compile` (src/server.py:37-117,
src/https_server.py:40-114) that validates the request and calls the
external Vyper compiler `compile_code`.

The compiler is external; we model it as an oracle
`Compiler : String -> String -> CompilerResult` where `CompilerResult`
distinguishes a successful output dictionary, a `VyperException` carrying
a message and optional position, and any other raised exception carrying
its raw message.  Each embedded `_compile` additionally returns the list
of `(contract_path, source_code)` argument pairs passed to `compile_code`,
so that theorems can speak about which compiler invocations happen.
-/

namespace VyperServer

/-! ## Python string helpers

`pysplit sep s` is Python's `s.split(sep)` for a single-character
separator: it always returns at least one (possibly empty) segment, and
`"".split(sep) == [""]`. -/

def pysplit (sep : Char) : List Char → List (List Char)
  | [] => [[]]
  | c :: rest =>
    match pysplit sep rest with
    | [] => [[]]
    | h :: t => if c = sep then [] :: h :: t else (c :: h) :: t

/-- Python `s.split(sep)[-1]` (the list from `pysplit` is never empty,
so the default is never used). -/
def lastSeg (sep : Char) (s : List Char) : List Char :=
  (pysplit sep s).getLastD []

/-- Python `s.split(sep)[0]`. -/
def firstSeg (sep : Char) (s : List Char) : List Char :=
  (pysplit sep s).headD []

/-- src/server.py:90-91:
`first_source_key.split('/')[-1].split('.')[0] if '.' in first_source_key else "Contract"`. -/
def serverContractName (s : String) : String :=
  if '.' ∈ s.toList then String.mk (firstSeg '.' (lastSeg '/' s.toList))
  else "Contract"

/-- src/https_server.py:83-84:
`first_source_key.split('/')[-1].split('.')[0]` (no fallback). -/
def httpsContractName (s : String) : String :=
  String.mk (firstSeg '.' (lastSeg '/' s.toList))

/-! ## Identifier generation

Both files (src/server.py:129, src/https_server.py:126) generate
`unique_id = "tmp" + str(uuid.uuid4())[:10]`.  `str(uuid.uuid4())` renders
the 128-bit random value `u` as 32 lowercase hex digits (most significant
nibble first) grouped 8-4-4-4-12 with hyphens, so its first 10 characters
are the first 8 hex digits, a hyphen, and the 9th hex digit. -/

/-- Lowercase hexadecimal digit for a nibble. -/
def hexDigit (n : Nat) : Char :=
  if n < 10 then Char.ofNat (48 + n) else Char.ofNat (87 + n)

/-- The `i`-th hex digit (most significant first, `i < 32`) of the
128-bit value `u`. -/
def nib (u i : Nat) : Char :=
  hexDigit (u / 16 ^ (31 - i) % 16)

/-- `str(uuid.UUID(int=u))`: 32 hex digits grouped 8-4-4-4-12. -/
def uuidString (u : Nat) : List Char :=
  [nib u 0, nib u 1, nib u 2, nib u 3, nib u 4, nib u 5, nib u 6, nib u 7, '-',
   nib u 8, nib u 9, nib u 10, nib u 11, '-',
   nib u 12, nib u 13, nib u 14, nib u 15, '-',
   nib u 16, nib u 17, nib u 18, nib u 19, '-',
   nib u 20, nib u 21, nib u 22, nib u 23, nib u 24, nib u 25,
   nib u 26, nib u 27, nib u 28, nib u 29, nib u 30, nib u 31]

/-- `"tmp" + str(uuid.uuid4())[:10]` where `u` is the drawn 128-bit value. -/
def uniqueId (u : Nat) : String :=
  "tmp" ++ String.mk ((uuidString u).take 10)

/-! ## Request data model

A request body is JSON `{"sources": {<path>: {"content": <string>}, ...}}`.
Python dicts preserve insertion order, so the sources mapping is an
association list; a missing `"sources"` key is `none`; a missing
`"content"` key is `none` (Python `value.get("content", "")` yields `""`
in that case). -/

structure SrcDesc where
  content : Option String
deriving DecidableEq

abbrev Sources := List (String × SrcDesc)

structure ReqData where
  sources : Option Sources
deriving DecidableEq

/-- The dictionary `compile_code` returns, restricted to the output
formats the two files request (server.py line 68 requests `ir`,
https_server.py line 63 requests `source_map`; the union is modelled so a
single oracle serves both variants).  Fields are opaque strings. -/
structure OutDict where
  abi : String
  bytecode : String
  bytecode_runtime : String
  ir : String
  source_map : String
  method_identifiers : String
deriving DecidableEq

/-- Outcome of one `compile_code(code, path)` call: a result dictionary,
a raised `VyperException` (message plus the `lineno`/`col_offset` the
handler extracts from it or its first annotation), or any other raised
exception with its raw message. -/
inductive CompilerResult where
  | ok (out_dict : OutDict)
  | vyperError (message : String) (lineno col_offset : Option Int)
  | raised (message : String)
deriving DecidableEq

/-- The external compiler as an oracle: arguments are `(code, path)`,
matching `compile_code(code, first_source_key, ...)`. -/
abbrev Compiler := String → String → CompilerResult

/-- Result of a handler body: a JSON body with an HTTP status, or an
exception that escaped the handler (uncaught in the Python function). -/
inductive HandlerResult (β : Type) where
  | ok (body : β) (status : Nat)
  | exn (message : String)
deriving DecidableEq

/-- The body of a handler result, when it produced one. -/
def HandlerResult.bodyOf : HandlerResult β → Option β
  | .ok b _ => some b
  | .exn _ => none

/-- The HTTP status of a handler result, when it produced one. -/
def HandlerResult.statusOf : HandlerResult β → Option Nat
  | .ok _ s => some s
  | .exn _ => none

/-! ## server.py artifact and `_compile` -/

/-- One entry of `contractTypes` in src/server.py:101-108. -/
structure ServerContractType where
  contractName : String
  sourceId : String
  deploymentBytecode : String
  runtimeBytecode : String
  abi : String
  sourcemap : String
deriving DecidableEq

/-- The artifact of src/server.py:94-116.  The constant fields
`name`/`version`/`meta` (None), `dev_messages`/`userdoc`/`devdoc` ({})
are omitted; `pcmap` and `ast` are omitted because those keys are never
in `out_dict` (not among the requested `output_formats`), so
`out_dict.get(...)` always yields the literal default. -/
structure ServerArtifact where
  manifest : String
  sources : Sources
  contractTypes : List (String × ServerContractType)
  methodIdentifiers : String
deriving DecidableEq

/-- A JSON body produced by src/server.py `_compile`: a plain
`{"status": "failed", "message": ...}` error, the same with
`column`/`line` fields (the `VyperException` branch, lines 82-87), or an
artifact. -/
inductive ServerBody where
  | errMsg (message : String)
  | errPos (message : String) (column line : Option Int)
  | artifact (a : ServerArtifact)
deriving DecidableEq

namespace Server

/-- src/server.py:37-117.  Notes on fidelity:
* `code = first_source_value.get("content", "")` then `if not code` —
  content is modelled as an optional string, so this is `code = ""`;
  the subsequent `isinstance(code, str)` check (line 57) can then never
  fire and has no branch here.
* `out_dict['ir'] = str(out_dict['ir'])` (line 73) is the identity on the
  already-string `ir` field.
* `out_dict.get("sourcemap", "")` (line 107) is `""` because `sourcemap`
  is not a requested output format; likewise `pcmap`/`ast` get their
  literal defaults and are omitted from `ServerArtifact`.
* A non-`VyperException` exception from `compile_code` is uncaught and
  propagates out of `_compile` (`HandlerResult.exn`).
The second component records the `(path, code)` pairs passed to
`compile_code`. -/
def _compile (compiler : Compiler) (data : ReqData) :
    HandlerResult ServerBody × List (String × String) :=
  match data.sources with
  | none => (.ok (.errMsg "Missing sources key") 400, [])
  | some [] => (.ok (.errMsg "No sources provided") 400, [])
  | some ((first_source_key, first_source_value) :: rest) =>
    let code := first_source_value.content.getD ""
    if code = "" then
      (.ok (.errMsg "No code provided in sources") 400, [])
    else
      match compiler code first_source_key with
      | .ok out_dict =>
        let contract_name := serverContractName first_source_key
        (.ok (.artifact {
            manifest := "ethpm/3"
            sources := (first_source_key, first_source_value) :: rest
            contractTypes := [(contract_name, {
              contractName := contract_name
              sourceId := first_source_key
              deploymentBytecode := out_dict.bytecode
              runtimeBytecode := out_dict.bytecode_runtime
              abi := out_dict.abi
              sourcemap := "" })]
            methodIdentifiers := out_dict.method_identifiers }) 200,
         [(first_source_key, code)])
      | .vyperError message lineno col_offset =>
        (.ok (.errPos message col_offset lineno) 400, [(first_source_key, code)])
      | .raised message =>
        (.exn message, [(first_source_key, code)])

end Server

/-! ## https_server.py artifact and `_compile` -/

/-- One value of the rebuilt `sources` mapping in
src/https_server.py:72-80; the `urls`/`checksum`/`type`/`license`/
`references`/`imports` fields are the constants `[]`/None and are
omitted. -/
structure HttpsSrcOut where
  content : String
deriving DecidableEq

/-- One entry of `contractTypes` in src/https_server.py:83-99 (the
constant `linkReferences`/`linkDependencies` None fields are omitted). -/
structure HttpsContractType where
  contractName : String
  sourceId : String
  deploymentBytecode : String
  runtimeBytecode : String
  abi : String
  sourcemap : String
  methodIdentifiers : String
deriving DecidableEq

/-- The artifact of src/https_server.py:66-104 (constant None fields
omitted). -/
structure HttpsArtifact where
  manifest : String
  sources : List (String × HttpsSrcOut)
  contractTypes : List (String × HttpsContractType)
deriving DecidableEq

/-- A JSON body produced by src/https_server.py `_compile`. -/
inductive HttpsBody where
  | errMsg (message : String)
  | artifact (a : HttpsArtifact)
deriving DecidableEq

namespace Https

/-- src/https_server.py:40-114.  Unlike server.py there is no empty-code
check: `code` (possibly `""`) goes straight to `compile_code`.  A
`VyperException` yields `({"status": "failed", "message": str(e)}, 400)`;
any other exception is caught by the bare `except Exception` and yields
the constant message `"Internal compilation error"` with status 500 —
nothing of the raw exception text reaches the returned body. -/
def _compile (compiler : Compiler) (data : ReqData) :
    HandlerResult HttpsBody × List (String × String) :=
  match data.sources with
  | none => (.ok (.errMsg "Missing sources key") 400, [])
  | some [] => (.ok (.errMsg "No sources provided") 400, [])
  | some ((first_source_key, first_source_value) :: _rest) =>
    let code := first_source_value.content.getD ""
    match compiler code first_source_key with
    | .ok out_dict =>
      let contract_name := httpsContractName first_source_key
      (.ok (.artifact {
          manifest := "ethpm/3"
          sources := [(first_source_key, { content := code })]
          contractTypes := [(contract_name, {
            contractName := contract_name
            sourceId := first_source_key
            deploymentBytecode := out_dict.bytecode
            runtimeBytecode := out_dict.bytecode_runtime
            abi := out_dict.abi
            sourcemap := out_dict.source_map
            methodIdentifiers := out_dict.method_identifiers })] }) 200,
       [(first_source_key, code)])
    | .vyperError message _ _ =>
      (.ok (.errMsg message) 400, [(first_source_key, code)])
    | .raised _ =>
      (.ok (.errMsg "Internal compilation error") 500, [(first_source_key, code)])

end Https

/-! ## The job store and route handlers

`compilation_results` is a Python dict from id strings to
`{'status': ..., 'data': ...}` records; insertion-ordered association
lists model it.  The record payload differs between the two files only in
the body type, so the store and the read-only routes are generic. -/

structure JobRecord (β : Type) where
  status : String
  data : β
deriving DecidableEq

abbrev Store (β : Type) := List (String × JobRecord β)

/-- Python dict assignment `compilation_results[k] = r`: overwrite in
place if the key exists, append otherwise. -/
def storeSet {β : Type} : Store β → String → JobRecord β → Store β
  | [], k, r => [(k, r)]
  | (k2, r2) :: rest, k, r =>
    if k2 = k then (k, r) :: rest else (k2, r2) :: storeSet rest k r

/-- Python `compilation_results[k] if k in compilation_results else None`. -/
def storeGet {β : Type} : Store β → String → Option (JobRecord β)
  | [], _ => none
  | (k2, r) :: rest, k => if k2 = k then some r else storeGet rest k

/-- `GET /status/{id}` (src/server.py:137-143, src/https_server.py:134-140):
`200` with the stored status text when the id is present, else
`404` with body `NOT FOUND`. -/
def check_status {β : Type} (store : Store β) (comp_id : String) : Nat × String :=
  match storeGet store comp_id with
  | some r => (200, r.status)
  | none => (404, "NOT FOUND")

/-- `GET /artifacts/{id}` (src/server.py:145-151, src/https_server.py:142-148):
`200` with the stored data when the id is present, else `404` (body
`NOT FOUND`, not modelled in the `none` case). -/
def get_artifacts {β : Type} (store : Store β) (comp_id : String) : Nat × Option β :=
  match storeGet store comp_id with
  | some r => (200, some r.data)
  | none => (404, none)

namespace Server

/-- `POST /compile` (src/server.py:123-135).  The handler *awaits*
`loop.run_in_executor(executor_pool, _compile, data)`, so the compilation
has finished before anything else happens; it then draws `unique_id`
(from the 128-bit value `u`), stores
`{'status': 'SUCCESS' if status == 200 else 'FAILURE', 'data': out}`,
and responds with body `unique_id` and HTTP status `status`.  When
`_compile` raised (uncaught non-Vyper exception) the handler itself
raises: no id is issued and the store is untouched (`none`). -/
def compile_it (compiler : Compiler) (data : ReqData) (u : Nat)
    (store : Store ServerBody) : Option (String × Nat × Store ServerBody) :=
  match (Server._compile compiler data).1 with
  | .exn _ => none
  | .ok out status =>
    let unique_id := uniqueId u
    some (unique_id, status,
      storeSet store unique_id
        ⟨if status = 200 then "SUCCESS" else "FAILURE", out⟩)

end Server

namespace Https

/-- `POST /compile` (src/https_server.py:120-132); identical handler over
the https variant of `_compile` (whose bare `except Exception` means the
`exn` case never arises). -/
def compile_it (compiler : Compiler) (data : ReqData) (u : Nat)
    (store : Store HttpsBody) : Option (String × Nat × Store HttpsBody) :=
  match (Https._compile compiler data).1 with
  | .exn _ => none
  | .ok out status =>
    let unique_id := uniqueId u
    some (unique_id, status,
      storeSet store unique_id
        ⟨if status = 200 then "SUCCESS" else "FAILURE", out⟩)

end Https

/-- Stores reachable in a src/server.py process: empty at startup, then
grown only by successful `POST /compile` handler runs. -/
inductive ServerReachable : Store ServerBody → Prop where
  | init : ServerReachable []
  | step {c : Compiler} {data : ReqData} {u : Nat} {s : Store ServerBody}
      {id : String} {st : Nat} {s2 : Store ServerBody} :
      ServerReachable s → Server.compile_it c data u s = some (id, st, s2) →
      ServerReachable s2

/-- Stores reachable in a src/https_server.py process. -/
inductive HttpsReachable : Store HttpsBody → Prop where
  | init : HttpsReachable []
  | step {c : Compiler} {data : ReqData} {u : Nat} {s : Store HttpsBody}
      {id : String} {st : Nat} {s2 : Store HttpsBody} :
      HttpsReachable s → Https.compile_it c data u s = some (id, st, s2) →
      HttpsReachable s2

/-! ## Spec-side definitions (for refinement comparisons)

These two follow the words of the specification/claims, not the code:
the "basename" of a path-like id is everything after its last `/`, and
stripping "its extension" removes the final `.`-suffix (as in
`os.path.splitext`). -/

/-- Spec reading of "the basename of the source id". -/
def basenameSpec (s : List Char) : List Char :=
  (s.reverse.takeWhile (fun c => c != '/')).reverse

/-- Spec reading of "with its extension stripped": remove the last `.`
and everything after it, when the name contains a dot. -/
def stripExtSpec (s : List Char) : List Char :=
  if '.' ∈ s then ((s.reverse.dropWhile (fun c => c != '.')).drop 1).reverse
  else s

/-! ## Projections used in theorem statements -/

/-- Keys of the artifact's `sources` mapping, for an https body. -/
def HttpsBody.sourceKeys : HttpsBody → List String
  | .artifact a => a.sources.map Prod.fst
  | .errMsg _ => []

/-- The `(key, contractName)` pairs of `contractTypes`, for an https body. -/
def HttpsBody.ctPairs : HttpsBody → List (String × String)
  | .artifact a => a.contractTypes.map (fun p => (p.1, p.2.contractName))
  | .errMsg _ => []

/-- The artifact's `sources` mapping, for a server body. -/
def ServerBody.sourcesOf : ServerBody → Option Sources
  | .artifact a => some a.sources
  | _ => none

/-- The `(key, contractName)` pairs of `contractTypes`, for a server body. -/
def ServerBody.ctPairs : ServerBody → List (String × String)
  | .artifact a => a.contractTypes.map (fun p => (p.1, p.2.contractName))
  | _ => []

/-- Whether a server body is an artifact (a successful compilation). -/
def ServerBody.isArtifact : ServerBody → Bool
  | .artifact _ => true
  | _ => false

/-- Whether an https body is an artifact (a successful compilation). -/
def HttpsBody.isArtifact : HttpsBody → Bool
  | .artifact _ => true
  | .errMsg _ => false

/-! ## Concrete fixtures for counterexamples and witnesses -/

/-- An oracle for a compiler that succeeds on every input. -/
def okCompiler : Compiler :=
  fun _ _ => .ok ⟨"abi0", "bc0", "rt0", "ir0", "sm0", "mi0"⟩

/-- An oracle for a compiler that raises a `VyperException` on every
input (a structured diagnostic: a syntactically invalid program). -/
def badCompiler : Compiler :=
  fun _ _ => .vyperError "expected an identifier" (some 1) (some 0)

/-- A structurally valid single-source request. -/
def reqOne : ReqData := ⟨some [("a.src", ⟨some "x: int128"⟩)]⟩

/-- A structurally valid request with two sources. -/
def reqTwo : ReqData := ⟨some [("a.vy", ⟨some "codeA"⟩), ("b.vy", ⟨some "codeB"⟩)]⟩

/-- The invalid request `{"sources": {}}` of spec Scenario C. -/
def reqEmpty : ReqData := ⟨some []⟩

/-- A valid request whose source id has two dots in its basename. -/
def reqDotted : ReqData := ⟨some [("a.b.vy", ⟨some "codeC"⟩)]⟩

/-- A request whose only source carries no `content` key. -/
def reqNoCode : ReqData := ⟨some [("a.vy", ⟨none⟩)]⟩

/-- The id issued for the (fixed) 128-bit draw 0. -/
def jid0 : String := uniqueId 0

/-- The body produced by a successful compilation of `reqOne`. -/
def bodyA : ServerBody :=
  (Server._compile okCompiler reqOne).1.bodyOf.getD (.errMsg "")

/-- The store after submitting `reqOne` (draw 0) to an empty store. -/
def storeA : Store ServerBody := storeSet [] jid0 ⟨"SUCCESS", bodyA⟩

/-! ## Store lemmas -/

theorem storeGet_storeSet_self {β : Type} (s : Store β) (k : String) (r : JobRecord β) :
    storeGet (storeSet s k r) k = some r := by
  induction s with
  | nil => simp [storeSet, storeGet]
  | cons p rest ih =>
    obtain ⟨k2, r2⟩ := p
    by_cases h : k2 = k <;> simp [storeSet, storeGet, h, ih]

theorem storeGet_storeSet_other {β : Type} (s : Store β) (k k2 : String)
    (r : JobRecord β) (h : k ≠ k2) :
    storeGet (storeSet s k r) k2 = storeGet s k2 := by
  induction s with
  | nil => simp [storeSet, storeGet, h]
  | cons p rest ih =>
    obtain ⟨k3, r3⟩ := p
    by_cases h3 : k3 = k
    · subst h3
      simp [storeSet, storeGet, h]
    · simp [storeSet, storeGet, h3, ih]

/-! ## Handler extraction lemmas -/

theorem server_compile_it_some {c : Compiler} {data : ReqData} {u : Nat}
    {store : Store ServerBody} {id : String} {st : Nat} {s2 : Store ServerBody}
    (h : Server.compile_it c data u store = some (id, st, s2)) :
    ∃ body, (Server._compile c data).1 = .ok body st ∧ id = uniqueId u ∧
      s2 = storeSet store (uniqueId u)
        ⟨if st = 200 then "SUCCESS" else "FAILURE", body⟩ := by
  unfold Server.compile_it at h
  cases hres : (Server._compile c data).1 with
  | exn m => rw [hres] at h; exact absurd h (by simp)
  | ok body status =>
    rw [hres] at h
    simp only [Option.some.injEq, Prod.mk.injEq] at h
    obtain ⟨h1, h2, h3⟩ := h
    subst h1; subst h2
    exact ⟨body, rfl, rfl, h3.symm⟩

theorem https_compile_it_some {c : Compiler} {data : ReqData} {u : Nat}
    {store : Store HttpsBody} {id : String} {st : Nat} {s2 : Store HttpsBody}
    (h : Https.compile_it c data u store = some (id, st, s2)) :
    ∃ body, (Https._compile c data).1 = .ok body st ∧ id = uniqueId u ∧
      s2 = storeSet store (uniqueId u)
        ⟨if st = 200 then "SUCCESS" else "FAILURE", body⟩ := by
  unfold Https.compile_it at h
  cases hres : (Https._compile c data).1 with
  | exn m => rw [hres] at h; exact absurd h (by simp)
  | ok body status =>
    rw [hres] at h
    simp only [Option.some.injEq, Prod.mk.injEq] at h
    obtain ⟨h1, h2, h3⟩ := h
    subst h1; subst h2
    exact ⟨body, rfl, rfl, h3.symm⟩

/-- Every record a reachable server store holds is already resolved. -/
theorem serverReachable_status_final {store : Store ServerBody}
    (h : ServerReachable store) :
    ∀ k r, storeGet store k = some r →
      r.status = "SUCCESS" ∨ r.status = "FAILURE" := by
  induction h with
  | init => intro k r hk; simp [storeGet] at hk
  | @step c data u s id st s2 _ hstep ih =>
    intro k r hk
    obtain ⟨body, _, _, hs2⟩ := server_compile_it_some hstep
    subst hs2
    by_cases hkk : uniqueId u = k
    · subst hkk
      rw [storeGet_storeSet_self] at hk
      cases hk
      by_cases hst : st = 200 <;> simp [hst]
    · rw [storeGet_storeSet_other _ _ _ _ hkk] at hk
      exact ih k r hk

/-- Every record a reachable https store holds is already resolved. -/
theorem httpsReachable_status_final {store : Store HttpsBody}
    (h : HttpsReachable store) :
    ∀ k r, storeGet store k = some r →
      r.status = "SUCCESS" ∨ r.status = "FAILURE" := by
  induction h with
  | init => intro k r hk; simp [storeGet] at hk
  | @step c data u s id st s2 _ hstep ih =>
    intro k r hk
    obtain ⟨body, _, _, hs2⟩ := https_compile_it_some hstep
    subst hs2
    by_cases hkk : uniqueId u = k
    · subst hkk
      rw [storeGet_storeSet_self] at hk
      cases hk
      by_cases hst : st = 200 <;> simp [hst]
    · rw [storeGet_storeSet_other _ _ _ _ hkk] at hk
      exact ih k r hk

/-! ## Lemmas about `pysplit` -/

theorem pysplit_ne_nil (sep : Char) : ∀ s : List Char, pysplit sep s ≠ [] := by
  intro s
  induction s with
  | nil => simp [pysplit]
  | cons c rest ih =>
    cases hr : pysplit sep rest with
    | nil => exact absurd hr ih
    | cons h t =>
      simp only [pysplit, hr]
      by_cases hc : c = sep <;> simp [hc]

/-- `s.split(sep)[0]` is the prefix of `s` before the first `sep`. -/
theorem firstSeg_eq (sep : Char) :
    ∀ s : List Char, firstSeg sep s = s.takeWhile (fun c => c != sep) := by
  intro s
  induction s with
  | nil => simp [firstSeg, pysplit]
  | cons c rest ih =>
    cases hr : pysplit sep rest with
    | nil => exact absurd hr (pysplit_ne_nil sep rest)
    | cons h t =>
      have hh : h = rest.takeWhile (fun c => c != sep) := by
        have := ih
        rw [firstSeg, hr] at this
        simpa using this
      by_cases hc : c = sep
      · subst hc
        simp [firstSeg, pysplit, hr, List.takeWhile_cons]
      · simp [firstSeg, pysplit, hr, List.takeWhile_cons, hc, hh]

theorem pysplit_concat_sep (sep : Char) :
    ∀ xs : List Char, pysplit sep (xs ++ [sep]) = pysplit sep xs ++ [[]] := by
  intro xs
  induction xs with
  | nil => simp [pysplit]
  | cons c rest ih =>
    cases hr : pysplit sep rest with
    | nil => exact absurd hr (pysplit_ne_nil sep rest)
    | cons h t =>
      rw [hr] at ih
      by_cases hc : c = sep <;>
        simp [pysplit, List.cons_append, ih, hr, hc]

theorem pysplit_concat_char (sep c : Char) (hc : c ≠ sep) :
    ∀ xs : List Char,
      pysplit sep (xs ++ [c]) =
        (pysplit sep xs).dropLast ++ [((pysplit sep xs).getLastD []) ++ [c]] := by
  intro xs
  induction xs with
  | nil => simp [pysplit, hc]
  | cons d rest ih =>
    cases hr : pysplit sep rest with
    | nil => exact absurd hr (pysplit_ne_nil sep rest)
    | cons h t =>
      rw [hr] at ih
      cases t with
      | nil =>
        by_cases hd : d = sep <;>
          simp [pysplit, List.cons_append, ih, hr, hd, hc,
            List.getLastD_cons, List.dropLast]
      | cons t1 ts =>
        by_cases hd : d = sep <;>
          simp [pysplit, List.cons_append, ih, hr, hd, hc,
            List.getLastD_cons, List.dropLast]

/-- `s.split(sep)[-1]` is the suffix of `s` after the last `sep`. -/
theorem lastSeg_eq (sep : Char) (s : List Char) :
    lastSeg sep s = (s.reverse.takeWhile (fun c => c != sep)).reverse := by
  rw [← s.reverse_reverse]
  generalize s.reverse = t
  induction t with
  | nil => simp [lastSeg, pysplit]
  | cons c t0 ih =>
    rw [List.reverse_cons, List.reverse_append, List.reverse_reverse]
    by_cases hc : c = sep
    · subst hc
      rw [lastSeg, pysplit_concat_sep, List.getLastD_concat]
      simp [List.takeWhile_cons]
    · rw [lastSeg, pysplit_concat_char sep c hc, List.getLastD_concat]
      rw [lastSeg] at ih
      simp only [List.reverse_reverse, List.getLastD_eq_getLast?] at ih
      simp [List.takeWhile_cons, hc, ih]

/-- The https contract name is the basename of the source id truncated
at its first dot. -/
theorem httpsContractName_eq (s : String) :
    httpsContractName s =
      String.mk ((basenameSpec s.toList).takeWhile (fun c => c != '.')) := by
  rw [httpsContractName, firstSeg_eq, lastSeg_eq, basenameSpec]

/-- The server contract name is the same, except that it falls back to
`"Contract"` when the whole source id contains no dot. -/
theorem serverContractName_eq (s : String) :
    serverContractName s =
      if '.' ∈ s.toList then
        String.mk ((basenameSpec s.toList).takeWhile (fun c => c != '.'))
      else "Contract" := by
  rw [serverContractName, firstSeg_eq, lastSeg_eq, basenameSpec]

/-! ## Lemmas about the truncated identifier

`uniqueId u` reads only the first 9 hex digits of `u`, i.e. only
`u / 2 ^ 92`: the truncated random portion carries 36 bits. -/

theorem nib_high {u v : Nat} (h : u / 2 ^ 92 = v / 2 ^ 92) {i : Nat}
    (hi : i ≤ 8) : nib u i = nib v i := by
  unfold nib
  have e16 : (16 : Nat) ^ 23 = 2 ^ 92 := by norm_num
  have e : (16 : Nat) ^ (31 - i) = 16 ^ 23 * 16 ^ (8 - i) := by
    rw [← pow_add]
    congr 1
    omega
  rw [e, ← Nat.div_div_eq_div_mul, ← Nat.div_div_eq_div_mul, e16, h]

theorem uniqueId_high {u v : Nat} (h : u / 2 ^ 92 = v / 2 ^ 92) :
    uniqueId u = uniqueId v := by
  unfold uniqueId uuidString
  simp only [List.take]
  rw [nib_high h (by omega : (0:Nat) ≤ 8), nib_high h (by omega : (1:Nat) ≤ 8),
    nib_high h (by omega : (2:Nat) ≤ 8), nib_high h (by omega : (3:Nat) ≤ 8),
    nib_high h (by omega : (4:Nat) ≤ 8), nib_high h (by omega : (5:Nat) ≤ 8),
    nib_high h (by omega : (6:Nat) ≤ 8), nib_high h (by omega : (7:Nat) ≤ 8),
    nib_high h (by omega : (8:Nat) ≤ 8)]

/-- All ids a process can ever issue fit in a space of `2 ^ 36` values. -/
theorem uniqueId_card_le :
    ((Finset.range (2 ^ 128)).image uniqueId).card ≤ 2 ^ 36 := by
  have hsub : (Finset.range (2 ^ 128)).image uniqueId ⊆
      (Finset.range (2 ^ 36)).image (fun k => uniqueId (k * 2 ^ 92)) := by
    intro x hx
    rw [Finset.mem_image] at hx ⊢
    obtain ⟨u, hu, hx⟩ := hx
    rw [Finset.mem_range] at hu
    refine ⟨u / 2 ^ 92, ?_, ?_⟩
    · rw [Finset.mem_range]
      have h92 : (0 : Nat) < 2 ^ 92 := by positivity
      rw [Nat.div_lt_iff_lt_mul h92]
      calc u < 2 ^ 128 := hu
        _ = 2 ^ 36 * 2 ^ 92 := by rw [← pow_add]
    · rw [← hx]
      refine uniqueId_high ?_
      rw [Nat.mul_div_cancel _ (by positivity : (0:Nat) < 2 ^ 92)]
  calc ((Finset.range (2 ^ 128)).image uniqueId).card
      ≤ ((Finset.range (2 ^ 36)).image (fun k => uniqueId (k * 2 ^ 92))).card :=
        Finset.card_le_card hsub
    _ ≤ (Finset.range (2 ^ 36)).card := Finset.card_image_le
    _ = 2 ^ 36 := Finset.card_range _

/-! ## Claim C1

The claim says `POST /compile` returns the id without waiting for the
compilation, with the job stored as `Pending` and no result.  The code
awaits the executor future before generating the id: when the handler
returns, the job is stored already resolved and the response status
mirrors the compile status. -/

/-- C1 counterexample: submitting a valid request to an empty store, the
record found under the returned id at the moment the handler returns has
status `SUCCESS`, not `Pending`. -/
theorem C1_counterexample :
    (Server.compile_it okCompiler reqOne 0 []).bind
        (fun r => (storeGet r.2.2 r.1).map (fun j => j.status)) = some "SUCCESS" ∧
    ("SUCCESS" : String) ≠ "Pending" := by
  constructor
  · decide
  · decide

/-- C1 (amended): `compile_it` runs the compilation to completion before
returning: at the moment it returns, the returned HTTP status is the
status `_compile` produced, and the store already holds the job under the
returned id with its final status (`SUCCESS` iff 200, else `FAILURE`) and
the compilation outcome as its result data. -/
theorem C1_amended :
    (∀ (c : Compiler) (data : ReqData) (u : Nat) (store : Store ServerBody)
        (id : String) (st : Nat) (s2 : Store ServerBody),
      Server.compile_it c data u store = some (id, st, s2) →
        id = uniqueId u ∧
        (Server._compile c data).1.statusOf = some st ∧
        (storeGet s2 id).map (fun j => j.status) =
          some (if st = 200 then "SUCCESS" else "FAILURE") ∧
        (storeGet s2 id).map (fun j => j.data) = (Server._compile c data).1.bodyOf ∧
        (storeGet s2 id).map (fun j => j.status) ≠ some "Pending") ∧
    (∀ (c : Compiler) (data : ReqData) (u : Nat) (store : Store HttpsBody)
        (id : String) (st : Nat) (s2 : Store HttpsBody),
      Https.compile_it c data u store = some (id, st, s2) →
        id = uniqueId u ∧
        (Https._compile c data).1.statusOf = some st ∧
        (storeGet s2 id).map (fun j => j.status) =
          some (if st = 200 then "SUCCESS" else "FAILURE") ∧
        (storeGet s2 id).map (fun j => j.data) = (Https._compile c data).1.bodyOf ∧
        (storeGet s2 id).map (fun j => j.status) ≠ some "Pending") := by
  constructor
  · intro c data u store id st s2 h
    obtain ⟨body, hres, hid, hs2⟩ := server_compile_it_some h
    subst hid
    subst hs2
    have hmap : (storeGet
        (storeSet store (uniqueId u)
          ⟨if st = 200 then "SUCCESS" else "FAILURE", body⟩)
        (uniqueId u)).map (fun j => j.status) =
        some (if st = 200 then "SUCCESS" else "FAILURE") := by
      rw [storeGet_storeSet_self]
      rfl
    refine ⟨rfl, ?_, hmap, ?_, ?_⟩
    · rw [hres]; rfl
    · rw [storeGet_storeSet_self, hres]; rfl
    · rw [hmap]
      by_cases hst : st = 200
      · rw [if_pos hst]; decide
      · rw [if_neg hst]; decide
  · intro c data u store id st s2 h
    obtain ⟨body, hres, hid, hs2⟩ := https_compile_it_some h
    subst hid
    subst hs2
    have hmap : (storeGet
        (storeSet store (uniqueId u)
          ⟨if st = 200 then "SUCCESS" else "FAILURE", body⟩)
        (uniqueId u)).map (fun j => j.status) =
        some (if st = 200 then "SUCCESS" else "FAILURE") := by
      rw [storeGet_storeSet_self]
      rfl
    refine ⟨rfl, ?_, hmap, ?_, ?_⟩
    · rw [hres]; rfl
    · rw [storeGet_storeSet_self, hres]; rfl
    · rw [hmap]
      by_cases hst : st = 200
      · rw [if_pos hst]; decide
      · rw [if_neg hst]; decide

/-- C1 witness: the amended theorem applied to a concrete server.py
submission; the stored record is already resolved (not Pending). -/
theorem C1_witness :
    (storeGet storeA jid0).map (fun j => j.status) ≠ some "Pending" :=
  (C1_amended.1 okCompiler reqOne 0 [] jid0 200 storeA (by decide)).2.2.2.2

/-! ## Claim C4

`str(uuid.uuid4())[:10]` keeps 9 hex digits (36 bits) plus a constant
hyphen, so distinct 128-bit draws can collide and the truncated space is
far below 48 bits. -/

/-- C4 counterexample: two distinct 128-bit uuid values receive the same
identifier, so two submissions can share an id. -/
theorem C4_counterexample : uniqueId 0 = uniqueId 1 ∧ (0 : Nat) ≠ 1 := by
  constructor
  · decide
  · decide

/-- C4 (amended): the issued id depends only on the top 36 bits of the
128-bit draw, the space of possible ids has at most `2 ^ 36` elements,
and `2 ^ 36` is below the `2 ^ 48` entropy target of the claim. -/
theorem C4_amended :
    (∀ u v : Nat, u / 2 ^ 92 = v / 2 ^ 92 → uniqueId u = uniqueId v) ∧
    ((Finset.range (2 ^ 128)).image uniqueId).card ≤ 2 ^ 36 ∧
    ((2 : Nat) ^ 36 < 2 ^ 48) :=
  ⟨fun _ _ h => uniqueId_high h, uniqueId_card_le, by norm_num⟩

/-- C4 witness: the amended theorem applied to the draws 5 and 6. -/
theorem C4_witness : uniqueId 5 = uniqueId 6 :=
  C4_amended.1 5 6 (by decide)

/-! ## Claim C2

A missing or empty sources mapping is answered with 400 before the
compiler runs — but the handler still generates an id and stores a
`FAILURE` record under it, so "no job identifier is generated and the
job store is unchanged" fails. -/

/-- C2 counterexample: submitting `{"sources": {}}` to an empty store
issues the id `tmp00000000-0` (for draw 0) and leaves a `FAILURE` record
in the store, which is therefore changed. -/
theorem C2_counterexample :
    Server.compile_it okCompiler reqEmpty 0 [] =
      some ("tmp00000000-0", 400,
        [("tmp00000000-0", ⟨"FAILURE", .errMsg "No sources provided"⟩)]) ∧
    ([("tmp00000000-0",
        (⟨"FAILURE", .errMsg "No sources provided"⟩ : JobRecord ServerBody))]
      ≠ ([] : Store ServerBody)) := by
  constructor
  · decide
  · decide

/-- C2 (amended): a submission with a missing or empty sources mapping
fails with HTTP 400 and the compiler is never invoked, but a job
identifier is still generated and returned as the body, and a `FAILURE`
record is stored under it. -/
theorem C2_amended (c : Compiler) (u : Nat) (store : Store ServerBody)
    (data : ReqData) (h : data.sources = none ∨ data.sources = some []) :
    (Server._compile c data).2 = [] ∧
    Server.compile_it c data u store =
      some (uniqueId u, 400,
        storeSet store (uniqueId u)
          ⟨"FAILURE",
           .errMsg (if data.sources = none then "Missing sources key"
                    else "No sources provided")⟩) := by
  obtain ⟨srcs⟩ := data
  replace h : srcs = none ∨ srcs = some [] := h
  rcases h with h | h <;> subst h <;> exact ⟨rfl, rfl⟩

/-- C2 witness: the amended theorem applied to `{"sources": {}}`. -/
theorem C2_witness : (Server._compile okCompiler reqEmpty).2 = [] :=
  (C2_amended okCompiler 0 [] reqEmpty (Or.inr rfl)).1

/-! ## Claim C3

The handler responds with `status=status` from `_compile`
(src/server.py:135), so a compile failure is answered 400 (https variant
also 500), not 200: 200 happens exactly when the compilation succeeded. -/

/-- Statuses src/server.py `_compile` can produce, and what 200 means. -/
theorem server_compile_ok_cases (c : Compiler) (data : ReqData)
    {body : ServerBody} {st : Nat}
    (h : (Server._compile c data).1 = .ok body st) :
    (st = 200 ∨ st = 400) ∧ (st = 200 ↔ body.isArtifact = true) := by
  obtain ⟨srcs⟩ := data
  cases srcs with
  | none => cases h; simp [ServerBody.isArtifact]
  | some l =>
    cases l with
    | nil => cases h; simp [ServerBody.isArtifact]
    | cons kv rest =>
      obtain ⟨k, v⟩ := kv
      by_cases hcode : v.content.getD "" = ""
      · rw [show (Server._compile c ⟨some ((k, v) :: rest)⟩).1 =
            .ok (.errMsg "No code provided in sources") 400 by
              simp [Server._compile, hcode]] at h
        cases h; simp [ServerBody.isArtifact]
      · cases hc : c (v.content.getD "") k with
        | ok out_dict =>
          simp only [Server._compile, hcode, if_neg hcode, hc] at h
          cases h; simp [ServerBody.isArtifact]
        | vyperError m l0 c0 =>
          simp only [Server._compile, hcode, if_neg hcode, hc] at h
          cases h; simp [ServerBody.isArtifact]
        | raised m =>
          simp only [Server._compile, hcode, if_neg hcode, hc] at h
          cases h

/-- Statuses src/https_server.py `_compile` can produce, and what 200
means. -/
theorem https_compile_ok_cases (c : Compiler) (data : ReqData)
    {body : HttpsBody} {st : Nat}
    (h : (Https._compile c data).1 = .ok body st) :
    (st = 200 ∨ st = 400 ∨ st = 500) ∧ (st = 200 ↔ body.isArtifact = true) := by
  obtain ⟨srcs⟩ := data
  cases srcs with
  | none => cases h; simp [HttpsBody.isArtifact]
  | some l =>
    cases l with
    | nil => cases h; simp [HttpsBody.isArtifact]
    | cons kv rest =>
      obtain ⟨k, v⟩ := kv
      cases hc : c (v.content.getD "") k with
      | ok out_dict =>
        simp only [Https._compile, hc] at h
        cases h; simp [HttpsBody.isArtifact]
      | vyperError m l0 c0 =>
        simp only [Https._compile, hc] at h
        cases h; simp [HttpsBody.isArtifact]
      | raised m =>
        simp only [Https._compile, hc] at h
        cases h; simp [HttpsBody.isArtifact]

/-- C3 counterexample: a structurally valid submission (non-empty
sources, non-empty code) whose compilation raises a `VyperException` is
answered with HTTP 400, not 200. -/
theorem C3_counterexample :
    reqOne.sources = some [("a.src", ⟨some "x: int128"⟩)] ∧
    (Server.compile_it badCompiler reqOne 0 []).map (fun r => r.2.1) =
      some 400 ∧
    ((400 : Nat) ≠ 200) := by
  refine ⟨rfl, by decide, by decide⟩

/-- C3 (amended): whenever `POST /compile` produces a response, its body
is the job id and its HTTP status is the compilation status, with 200
exactly when the job's outcome is an artifact — so a compile failure is
never answered 200: it gets 400 in the server.py variant (whose statuses
are 200/400), and 400 or 500 in the https_server.py variant (whose
statuses are 200/400/500, 400 for a `VyperException` diagnostic and 500
for an unexpected exception). -/
theorem C3_amended :
    (∀ (c : Compiler) (data : ReqData) (u : Nat) (store : Store ServerBody)
        (id : String) (st : Nat) (s2 : Store ServerBody),
      Server.compile_it c data u store = some (id, st, s2) →
        id = uniqueId u ∧ (st = 200 ∨ st = 400) ∧
        (st = 200 ↔
          (Server._compile c data).1.bodyOf.map ServerBody.isArtifact = some true)) ∧
    (∀ (c : Compiler) (data : ReqData) (u : Nat) (store : Store HttpsBody)
        (id : String) (st : Nat) (s2 : Store HttpsBody),
      Https.compile_it c data u store = some (id, st, s2) →
        id = uniqueId u ∧ (st = 200 ∨ st = 400 ∨ st = 500) ∧
        (st = 200 ↔
          (Https._compile c data).1.bodyOf.map HttpsBody.isArtifact = some true)) ∧
    (∀ (c : Compiler) (data : ReqData) (k : String) (v : SrcDesc)
        (rest : Sources) (u : Nat) (store : Store HttpsBody),
      data.sources = some ((k, v) :: rest) →
        (∀ m lineno col_offset,
          c (v.content.getD "") k = .vyperError m lineno col_offset →
            (Https.compile_it c data u store).map (fun r => r.2.1) = some 400) ∧
        (∀ m, c (v.content.getD "") k = .raised m →
            (Https.compile_it c data u store).map (fun r => r.2.1) = some 500)) := by
  refine ⟨?_, ?_, ?_⟩
  · intro c data u store id st s2 h
    obtain ⟨body, hres, hid, _⟩ := server_compile_it_some h
    obtain ⟨hst, hiff⟩ := server_compile_ok_cases c data hres
    refine ⟨hid, hst, ?_⟩
    rw [hres]
    simpa [HandlerResult.bodyOf] using hiff
  · intro c data u store id st s2 h
    obtain ⟨body, hres, hid, _⟩ := https_compile_it_some h
    obtain ⟨hst, hiff⟩ := https_compile_ok_cases c data hres
    refine ⟨hid, hst, ?_⟩
    rw [hres]
    simpa [HandlerResult.bodyOf] using hiff
  · intro c data k v rest u store hs
    obtain ⟨srcs⟩ := data
    replace hs : srcs = some ((k, v) :: rest) := hs
    subst hs
    constructor
    · intro m lineno col_offset hc
      simp [Https.compile_it, Https._compile, hc]
    · intro m hc
      simp [Https.compile_it, Https._compile, hc]

/-- C3 witness: the amended theorem applied to a concrete failing
compilation; the response status is 400, i.e. not 200. -/
theorem C3_witness : ((400 : Nat) = 200 ∨ (400 : Nat) = 400) :=
  ((C3_amended.1 badCompiler reqOne 0 []
    (uniqueId 0) 400
    (storeSet [] (uniqueId 0)
      ⟨"FAILURE", .errPos "expected an identifier" (some 0) (some 1)⟩)
    (by decide)).2.1)

/-! ## Claim C5

The store entry is written before the handler returns the id, and the
store never deletes, so a status or artifact query for a returned id
never sees `NOT FOUND`. -/

/-- C5: whenever `POST /compile` returns an id, `GET /status/{id}` on the
resulting store answers 200 with a status text (never `404 NOT FOUND`),
and `GET /artifacts/{id}` answers 200 — in both variants. -/
theorem C5_theorem :
    (∀ (c : Compiler) (data : ReqData) (u : Nat) (store : Store ServerBody)
        (id : String) (st : Nat) (s2 : Store ServerBody),
      Server.compile_it c data u store = some (id, st, s2) →
        (check_status s2 id).1 = 200 ∧ (check_status s2 id).2 ≠ "NOT FOUND" ∧
        check_status s2 id ≠ (404, "NOT FOUND") ∧ (get_artifacts s2 id).1 = 200) ∧
    (∀ (c : Compiler) (data : ReqData) (u : Nat) (store : Store HttpsBody)
        (id : String) (st : Nat) (s2 : Store HttpsBody),
      Https.compile_it c data u store = some (id, st, s2) →
        (check_status s2 id).1 = 200 ∧ (check_status s2 id).2 ≠ "NOT FOUND" ∧
        check_status s2 id ≠ (404, "NOT FOUND") ∧ (get_artifacts s2 id).1 = 200) := by
  constructor
  · intro c data u store id st s2 h
    obtain ⟨body, _, hid, hs2⟩ := server_compile_it_some h
    subst hid
    subst hs2
    rw [check_status, get_artifacts, storeGet_storeSet_self]
    refine ⟨rfl, ?_, ?_, rfl⟩
    · by_cases hst : st = 200 <;> simp [hst]
    · by_cases hst : st = 200 <;> simp [hst]
  · intro c data u store id st s2 h
    obtain ⟨body, _, hid, hs2⟩ := https_compile_it_some h
    subst hid
    subst hs2
    rw [check_status, get_artifacts, storeGet_storeSet_self]
    refine ⟨rfl, ?_, ?_, rfl⟩
    · by_cases hst : st = 200 <;> simp [hst]
    · by_cases hst : st = 200 <;> simp [hst]

/-- C5 witness: the theorem applied to a concrete submission. -/
theorem C5_witness : (check_status storeA jid0).1 = 200 :=
  (C5_theorem.1 okCompiler reqOne 0 [] jid0 200 storeA (by decide)).1

/-! ## Claim C6

https_server.py catches any non-`VyperException` in a bare
`except Exception` and returns the constant body
`{"status": "failed", "message": "Internal compilation error"}` with 500:
the response is independent of the raw exception text.  In server.py such
an exception is uncaught: the handler produces no body at all (the
framework's generic 500 takes over), so no raw text reaches a response
body there either. -/

/-- C6: for a compiler invocation raising an unrecognized exception with
raw text `m`, the https variant answers with the fixed sanitized message
(the same response for any two raw texts `m`, `m2`), and the server
variant's handler produces no response body at all. -/
theorem C6_theorem (data : ReqData) (k : String) (v : SrcDesc)
    (rest : Sources) (m m2 : String) (u : Nat) (store : Store ServerBody)
    (hs : data.sources = some ((k, v) :: rest)) :
    (Https._compile (fun _ _ => .raised m) data).1 =
      .ok (.errMsg "Internal compilation error") 500 ∧
    (Https._compile (fun _ _ => .raised m) data).1 =
      (Https._compile (fun _ _ => .raised m2) data).1 ∧
    (v.content.getD "" ≠ "" →
      Server.compile_it (fun _ _ => .raised m) data u store = none) := by
  obtain ⟨srcs⟩ := data
  replace hs : srcs = some ((k, v) :: rest) := hs
  subst hs
  refine ⟨rfl, rfl, fun hne => ?_⟩
  simp [Server.compile_it, Server._compile, hne]

/-- C6 witness: the theorem applied to a concrete submission and two
distinct raw exception texts. -/
theorem C6_witness :
    (Https._compile (fun _ _ => .raised "boom") reqOne).1 =
      .ok (.errMsg "Internal compilation error") 500 :=
  (C6_theorem reqOne "a.src" ⟨some "x: int128"⟩ [] "boom" "kaput" 0 [] rfl).1

/-! ## Claim C7

Both variants compile only the first source entry.  server.py copies the
request's whole sources mapping into the artifact
(`"sources": data["sources"]`), but https_server.py rebuilds `sources`
with only the first entry, dropping the rest — so "all entries appear
unchanged in the resulting artifact" fails for that cited variant. -/

/-- C7 counterexample: submitting two sources to the https variant, the
artifact's `sources` mapping keeps only the first key, while the request
had two. -/
theorem C7_counterexample :
    ((Https._compile okCompiler reqTwo).1.bodyOf.map HttpsBody.sourceKeys) =
      some ["a.vy"] ∧
    reqTwo.sources = some [("a.vy", ⟨some "codeA"⟩), ("b.vy", ⟨some "codeB"⟩)] ∧
    ((["a.vy"] : List String) ≠ ["a.vy", "b.vy"]) := by
  refine ⟨by decide, rfl, by decide⟩

/-- C7 (amended): for every non-empty submission — whatever the compiler
does — at most the first source entry is passed to the compiler: the
server.py call list is empty (empty-code rejection) or exactly
`[(first key, its code)]`, and the https_server.py call list is exactly
`[(first key, its code)]`.  On success the server.py artifact carries the
whole request mapping unchanged in its `sources` field, while the
https_server.py artifact's `sources` keeps only the first key. -/
theorem C7_amended :
    (∀ (c : Compiler) (data : ReqData) (k : String) (v : SrcDesc)
        (rest : Sources),
      data.sources = some ((k, v) :: rest) →
        ((Server._compile c data).2 = [] ∨
          (Server._compile c data).2 = [(k, v.content.getD "")]) ∧
        (Https._compile c data).2 = [(k, v.content.getD "")]) ∧
    (∀ (c : Compiler) (data : ReqData) (k : String) (v : SrcDesc)
        (rest : Sources) (out_dict : OutDict),
      data.sources = some ((k, v) :: rest) →
      c (v.content.getD "") k = .ok out_dict →
        (v.content.getD "" ≠ "" →
          ((Server._compile c data).1.bodyOf.bind ServerBody.sourcesOf) =
            some ((k, v) :: rest)) ∧
        ((Https._compile c data).1.bodyOf.map HttpsBody.sourceKeys) = some [k]) := by
  constructor
  · intro c data k v rest hs
    obtain ⟨srcs⟩ := data
    replace hs : srcs = some ((k, v) :: rest) := hs
    subst hs
    constructor
    · by_cases hcode : v.content.getD "" = ""
      · left; simp [Server._compile, hcode]
      · cases hc : c (v.content.getD "") k <;>
          · right; simp [Server._compile, hcode, hc]
    · cases hc : c (v.content.getD "") k <;> simp [Https._compile, hc]
  · intro c data k v rest out_dict hs hok
    obtain ⟨srcs⟩ := data
    replace hs : srcs = some ((k, v) :: rest) := hs
    subst hs
    refine ⟨fun hne => ?_, ?_⟩
    · simp [Server._compile, hne, hok, HandlerResult.bodyOf, ServerBody.sourcesOf]
    · simp [Https._compile, hok, HandlerResult.bodyOf, HttpsBody.sourceKeys]

/-- C7 witness: the amended theorem applied to a concrete two-source
request; the https artifact keeps only the first key. -/
theorem C7_witness :
    ((Https._compile okCompiler reqTwo).1.bodyOf.map HttpsBody.sourceKeys) =
      some ["a.vy"] :=
  (C7_amended.2 okCompiler reqTwo "a.vy" ⟨some "codeA"⟩ [("b.vy", ⟨some "codeB"⟩)]
    ⟨"abi0", "bc0", "rt0", "ir0", "sm0", "mi0"⟩ rfl rfl).2

/-! ## Claim C8

`GET /status/{id}`: 200 with the stored status text (always `SUCCESS` or
`FAILURE` in a reachable store, both drawn from the claim's allowed
texts) exactly when the id is present; `404 NOT FOUND` exactly when it is
not — in both variants. -/

/-- C8: over every reachable store of either variant, `check_status`
answers 200 with a `SUCCESS`/`FAILURE`/`PENDING` body exactly on present
ids and `(404, NOT FOUND)` exactly on absent ones. -/
theorem C8_theorem :
    (∀ store : Store ServerBody, ServerReachable store → ∀ id : String,
      ((storeGet store id).isSome = true →
        (check_status store id).1 = 200 ∧
        ((check_status store id).2 = "SUCCESS" ∨
         (check_status store id).2 = "FAILURE" ∨
         (check_status store id).2 = "PENDING")) ∧
      ((storeGet store id).isSome = false →
        check_status store id = (404, "NOT FOUND"))) ∧
    (∀ store : Store HttpsBody, HttpsReachable store → ∀ id : String,
      ((storeGet store id).isSome = true →
        (check_status store id).1 = 200 ∧
        ((check_status store id).2 = "SUCCESS" ∨
         (check_status store id).2 = "FAILURE" ∨
         (check_status store id).2 = "PENDING")) ∧
      ((storeGet store id).isSome = false →
        check_status store id = (404, "NOT FOUND"))) := by
  constructor
  · intro store h id
    constructor
    · intro hsome
      cases hg : storeGet store id with
      | none => rw [hg] at hsome; cases hsome
      | some r =>
        rw [check_status, hg]
        rcases serverReachable_status_final h id r hg with hst | hst <;> simp [hst]
    · intro hnone
      cases hg : storeGet store id with
      | none => rw [check_status, hg]
      | some r => rw [hg] at hnone; cases hnone
  · intro store h id
    constructor
    · intro hsome
      cases hg : storeGet store id with
      | none => rw [hg] at hsome; cases hsome
      | some r =>
        rw [check_status, hg]
        rcases httpsReachable_status_final h id r hg with hst | hst <;> simp [hst]
    · intro hnone
      cases hg : storeGet store id with
      | none => rw [check_status, hg]
      | some r => rw [hg] at hnone; cases hnone

/-- C8 witness: the theorem applied to the empty (initial) store and an
unknown id. -/
theorem C8_witness : check_status ([] : Store ServerBody) "unknown-id" =
    (404, "NOT FOUND") :=
  (C8_theorem.1 [] ServerReachable.init "unknown-id").2 rfl

/-! ## Claim C9

server.py rejects a missing/empty first `content` with
`"No code provided in sources"` (400) without calling the compiler;
https_server.py has no such check and calls the compiler with `""`. -/

/-- C9: for a first source whose content is missing or the empty string,
the server.py variant returns the 400 error body without any compiler
call, while the https_server.py variant invokes the compiler on the empty
string. -/
theorem C9_theorem (c : Compiler) (data : ReqData) (k : String) (v : SrcDesc)
    (rest : Sources) (hs : data.sources = some ((k, v) :: rest))
    (hv : v.content = none ∨ v.content = some "") :
    Server._compile c data =
      (.ok (.errMsg "No code provided in sources") 400, []) ∧
    (Https._compile c data).2 = [(k, "")] := by
  obtain ⟨srcs⟩ := data
  replace hs : srcs = some ((k, v) :: rest) := hs
  subst hs
  have hcode : v.content.getD "" = "" := by
    rcases hv with hv | hv <;> rw [hv] <;> rfl
  constructor
  · simp [Server._compile, hcode]
  · rw [show (Https._compile c ⟨some ((k, v) :: rest)⟩).2 =
        [(k, v.content.getD "")] by
          cases hc : c (v.content.getD "") k <;> simp [Https._compile, hc],
      hcode]

/-- C9 witness: the theorem applied to a request whose only source has no
content key. -/
theorem C9_witness :
    Server._compile okCompiler reqNoCode =
      (.ok (.errMsg "No code provided in sources") 400, []) :=
  (C9_theorem okCompiler reqNoCode "a.vy" ⟨none⟩ [] rfl (Or.inl rfl)).1

/-! ## Claim C10

Both variants key the single `contractTypes` entry by
`first_source_key.split('/')[-1].split('.')[0]`: the basename truncated
at its *first* dot.  On a basename with several dots that differs from
"with its extension stripped" (which removes only the final
`.`-suffix), so the derivation clause of the claim fails. -/

/-- C10 counterexample: for source id `a.b.vy` the artifact's single
contract key is `a`, but the basename with its extension stripped is
`a.b`. -/
theorem C10_counterexample :
    ((Https._compile okCompiler reqDotted).1.bodyOf.map HttpsBody.ctPairs) =
      some [("a", "a")] ∧
    String.mk (stripExtSpec (basenameSpec ("a.b.vy".toList))) = "a.b" ∧
    (("a" : String) ≠ "a.b") := by
  refine ⟨by decide, by decide, by decide⟩

/-- C10 (amended): every artifact of a successful compilation has exactly
one `contractTypes` entry whose key equals its `contractName` field; the
name is the basename of the first source id truncated at its first dot
(not merely its final extension), and server.py falls back to `Contract`
when the whole source id contains no dot. -/
theorem C10_amended (c : Compiler) (data : ReqData) (k : String) (v : SrcDesc)
    (rest : Sources) (out_dict : OutDict)
    (hs : data.sources = some ((k, v) :: rest))
    (hok : c (v.content.getD "") k = .ok out_dict) :
    ((Https._compile c data).1.bodyOf.map HttpsBody.ctPairs) =
      some [(httpsContractName k, httpsContractName k)] ∧
    (v.content.getD "" ≠ "" →
      ((Server._compile c data).1.bodyOf.map ServerBody.ctPairs) =
        some [(serverContractName k, serverContractName k)]) ∧
    httpsContractName k =
      String.mk ((basenameSpec k.toList).takeWhile (fun ch => ch != '.')) ∧
    serverContractName k =
      (if '.' ∈ k.toList then
        String.mk ((basenameSpec k.toList).takeWhile (fun ch => ch != '.'))
       else "Contract") := by
  obtain ⟨srcs⟩ := data
  replace hs : srcs = some ((k, v) :: rest) := hs
  subst hs
  refine ⟨?_, fun hne => ?_, httpsContractName_eq k, serverContractName_eq k⟩
  · simp [Https._compile, hok, HandlerResult.bodyOf, HttpsBody.ctPairs]
  · simp [Server._compile, hne, hok, HandlerResult.bodyOf, ServerBody.ctPairs]

/-- C10 witness: the amended theorem applied to a concrete submission. -/
theorem C10_witness :
    httpsContractName "a.src" =
      String.mk ((basenameSpec ("a.src".toList)).takeWhile (fun ch => ch != '.')) :=
  (C10_amended okCompiler reqOne "a.src" ⟨some "x: int128"⟩ []
    ⟨"abi0", "bc0", "rt0", "ir0", "sm0", "mi0"⟩ rfl rfl).2.2.1

end VyperServer
